import Mathlib

/-!
Shallow embedding of the AI Research Assistant repository's upload-and-process
pipeline (the `Upload` page component's `handleUpload`), the `process-audio`
edge function (its `serve` handler together with `generateMockTranscript`,
`extractKeyPoints` and `generateTags`), and the reachable database states
these two operations generate.

Conventions of the embedding:
- JavaScript strings are Lean `String`s; `Math.random()` draws are modelled as
  a rational `r` with `0 ≤ r < 1` (the contract of `Math.random`).
- The relational store is a `DB`: a list of transcript rows and insight rows.
- Fallible external calls (row insert, row update, object-store upload,
  function invocation, completion-endpoint call) are modelled by environment
  records that fix each call's outcome; the operations are then pure
  functions of the request, the environment and the database.
-/

/-- JavaScript `s.includes(t)` for a nonempty needle `t`: `splitOn` yields one
more piece than there are occurrences of `t`, so two or more pieces means `t`
occurs in `s`. (All needles used below are nonempty string constants.) -/
def strIncludes (s t : String) : Bool :=
  2 ≤ (s.splitOn t).length

def template1 : String :=
  "Interviewer: Thank you for joining us today. Could you start by telling us about your company's current market position?\n\nInterviewee: Absolutely. We've been operating in the B2B software space for about 8 years now, and we've seen significant growth, especially in the last two years. Our recurring revenue has grown by 150% year-over-year, and we're currently serving over 2,000 enterprise clients.\n\nInterviewer: That's impressive growth. What would you say are the main drivers behind this success?\n\nInterviewee: I think there are three key factors. First, we identified a gap in the market early on - businesses were struggling with data integration across multiple platforms. Second, our team has deep domain expertise, with most of our engineers having 10+ years of experience in enterprise software. And third, we've been very focused on customer success and retention.\n\nInterviewer: What challenges are you currently facing as you scale?\n\nInterviewee: The main challenge is talent acquisition. We're growing so fast that we need to double our engineering team in the next 12 months, but finding qualified candidates is extremely difficult in today's market. We're also facing increased competition from larger players who are starting to notice our success.\n\nInterviewer: How do you see the competitive landscape evolving?\n\nInterviewee: We expect consolidation in our space within the next 2-3 years. The larger tech companies are acquiring smaller players, which creates both threats and opportunities for us. We need to either scale quickly enough to compete directly or position ourselves as an attractive acquisition target.\n\nInterviewer: What are your funding needs and how would you use additional capital?\n\nInterviewee: We're looking to raise $50M in Series B funding. The primary use would be scaling our sales and engineering teams, with about 60% going to talent acquisition, 25% to product development, and 15% to market expansion. We see a clear path to $100M ARR within 24 months with the right resources."

def template2 : String :=
  "Interviewer: Let's discuss your company's financial performance over the past few years.\n\nInterviewee: Our financials have been quite strong. We achieved profitability in year 3, which is relatively early for a SaaS company. Our gross margins are around 85%, and we've maintained an efficient CAC to LTV ratio of 1:5.\n\nInterviewer: Can you walk us through your revenue model?\n\nInterviewee: We operate on a subscription model with three tiers: Basic at $500/month, Professional at $2,000/month, and Enterprise starting at $10,000/month. About 70% of our revenue comes from the Professional tier, which targets mid-market companies. Our net revenue retention is 125%, indicating strong expansion within existing accounts.\n\nInterviewer: What are the biggest risks you see for your business?\n\nInterviewee: There are several risks we monitor closely. Technology risk is significant - our industry moves fast, and we need to continuously innovate to stay relevant. Regulatory changes, especially around data privacy, could impact our operations. And there's always the risk of new entrants with significant funding disrupting the market.\n\nInterviewer: How do you approach product development and innovation?\n\nInterviewee: We follow a data-driven approach. We spend a lot of time with our customers understanding their pain points. Our product roadmap is primarily driven by customer feedback and usage analytics. We also allocate about 20% of our engineering resources to experimental features and emerging technologies.\n\nInterviewer: What's your international expansion strategy?\n\nInterviewee: We're currently focused on the North American market, but we see significant opportunities in Europe and Asia-Pacific. We plan to enter the European market next year, starting with the UK and Germany. The regulatory environment in Europe is more complex, but the market opportunity is substantial."

def template3 : String :=
  "Interviewer: Could you describe the management team and organizational structure?\n\nInterviewee: Our leadership team brings together complementary skills. I handle strategy and business development, our CTO leads product and engineering, and our VP of Sales manages all revenue operations. We've kept the organization relatively flat to maintain agility, but we're starting to add middle management as we scale.\n\nInterviewer: How do you maintain company culture during rapid growth?\n\nInterviewee: Culture is something we think about constantly. We've documented our core values and ensure they're part of every hiring decision. We do quarterly all-hands meetings and maintain an open communication policy. The challenge is preserving the startup mentality while adding necessary processes and structure.\n\nInterviewer: What role does technology play in your competitive advantage?\n\nInterviewee: Technology is at the core of everything we do. We've built proprietary algorithms for data processing that give us a significant speed advantage over competitors. Our API response times are 3x faster than the industry average, and our uptime is 99.9%. We also have several patents pending on our core technology.\n\nInterviewer: How do you see the next 5 years for your company?\n\nInterviewee: We have an ambitious vision. In 5 years, we want to be the dominant platform in our category, with $500M+ in annual revenue. We see opportunities for horizontal expansion into adjacent markets and potentially strategic acquisitions. Going public is definitely on our roadmap, likely in the 3-4 year timeframe.\n\nInterviewer: What would make this partnership successful from your perspective?\n\nInterviewee: We're looking for more than just capital. We want a partner who understands our market and can provide strategic guidance as we scale. Access to your portfolio companies for potential partnerships or customers would be valuable. Most importantly, we want investors who share our long-term vision and won't pressure us for short-term returns at the expense of sustainable growth."

/-- The three fixed transcript templates of `generateMockTranscript`. -/
def templates : List String := [template1, template2, template3]

/-- Index drawn by `Math.floor(Math.random() * templates.length)` for a
`Math.random()` value `r`. -/
def chosenIdx (r : ℚ) : ℕ :=
  (Int.floor (r * (templates.length : ℚ))).toNat

/-- `generateMockTranscript(fileName)` with the `Math.random()` draw `r` made
explicit: picks `templates[Math.floor(r * templates.length)]` and prefixes the
file name. -/
def generateMockTranscript (fileName : String) (r : ℚ) : String :=
  let randomTemplate := templates.getD (chosenIdx r) ""
  "File: " ++ fileName ++ "\n\nTranscript:\n\n" ++ randomTemplate

/-- A line contains one of the bullet markers checked by
`line.includes(\u2022) || line.includes(-) || line.includes(*)`. -/
def lineHasMarker (line : String) : Bool :=
  line.toList.any (fun c => c = '•' || c = '-' || c = '*')

/-- `line.replace(/[\u2022\-*]/g, \x27\x27)`: drop every bullet-marker character. -/
def stripMarkers (line : String) : String :=
  String.mk (line.toList.filter (fun c => !(c = '•' || c = '-' || c = '*')))

/-- `extractKeyPoints(aiSummary)`: collect bullet lines (markers stripped) and
50–200 character lines; if none were found, fall back to the first five
sentences whose trimmed length exceeds 30; finally cap at 8 items. -/
def extractKeyPoints (aiSummary : String) : List String :=
  let lines := (aiSummary.splitOn "\n").filter (fun line => 0 < line.trim.length)
  let keyPoints := lines.foldl (fun acc line =>
    if lineHasMarker line then acc ++ [(stripMarkers line).trim]
    else if 50 < line.length ∧ line.length < 200 then acc ++ [line.trim]
    else acc) []
  if keyPoints.length = 0 then
    let sentences := (aiSummary.splitOn ".").filter (fun s => 30 < s.trim.length)
    (sentences.take 5).map (fun s => s.trim ++ ".")
  else
    keyPoints.take 8

/-- The fixed vocabulary `commonBusinessTags` of `generateTags`. -/
def commonBusinessTags : List String :=
  ["growth", "revenue", "market-position", "competition", "scaling",
   "funding", "technology", "team", "strategy", "risks", "opportunities",
   "product-development", "customer-success", "market-expansion", "partnerships"]

/-- The fixed filler tags `additionalTags` of `generateTags`. -/
def additionalTags : List String :=
  ["business-model", "financial-performance", "leadership"]

/-- `generateTags(aiSummary)`: keep the vocabulary tags whose dash-to-space or
dash-removed form occurs in the lowercased summary, pad with fillers up to
three, cap at six. (Each vocabulary tag holds at most one dash, so replacing
every dash agrees with JavaScript's first-occurrence `String.replace`.) -/
def generateTags (aiSummary : String) : List String :=
  let summaryLower := aiSummary.toLower
  let relevantTags := commonBusinessTags.filter (fun tag =>
    strIncludes summaryLower (tag.replace "-" " ") ||
    strIncludes summaryLower (tag.replace "-" ""))
  let padded :=
    if relevantTags.length < 3 then
      relevantTags ++ additionalTags.take (3 - relevantTags.length)
    else relevantTags
  padded.take 6

/-- The 18 strings `generateTags` can ever emit: the vocabulary plus fillers. -/
def tagVocabulary : List String := commonBusinessTags ++ additionalTags

/-- `Math.floor(Math.random() * 3600) + 300` for the draw `r`: the
audio_duration written by the processing step. -/
def audioDuration (r : ℚ) : ℤ :=
  Int.floor (r * 3600) + 300

/-- `0.85 + Math.random() * 0.15` for the draw `r`: the confidence_score
written with a new insight row. -/
def confidenceScore (r : ℚ) : ℚ :=
  0.85 + r * 0.15

/-- A row of the `transcripts` table, restricted to the columns the embedded
operations read or write. `processed_at` keeps the ISO timestamp string. -/
structure TranscriptRow where
  id : String
  user_id : String
  title : String
  file_name : String
  transcript_text : Option String
  audio_duration : Option ℤ
  processed_at : Option String
deriving DecidableEq

/-- A row of the `insights` table, restricted to the columns the processing
step writes. -/
structure InsightRow where
  transcript_id : String
  user_id : String
  summary_text : String
  key_points : List String
  tags : List String
  confidence_score : ℚ
deriving DecidableEq

/-- The relational store: the two tables the pipeline and the processing step
touch. -/
structure DB where
  transcripts : List TranscriptRow
  insights : List InsightRow
deriving DecidableEq

/-- The empty store: the state before any upload. -/
def emptyDB : DB := ⟨[], []⟩

/-- Outcome of the completion-endpoint `fetch` inside the processing step:
the call throws, returns a non-2xx response, or returns 2xx with the content
read from `choices[0]?.message?.content || ""`. -/
inductive CompletionOutcome where
  | throws
  | notOk
  | ok (content : String)
deriving DecidableEq

/-- Environment of one processing-step invocation: the outcome of each
fallible external call and each `Math.random()` draw. -/
structure ProcEnv where
  fetchError : Option String
  updateError : Option String
  apiKey : Option String
  completion : CompletionOutcome
  insertError : Option String
  templateDraw : ℚ
  durationDraw : ℚ
  confDraw : ℚ
  now : String
deriving DecidableEq

/-- The processing step's HTTP response: `{ success: true, message,
transcript }` with status 200, or `{ error }` with status 500. -/
inductive ProcResponse where
  | success (message : String) (transcript : String)
  | failure (error : String)
deriving DecidableEq

/-- The single `update` the processing step issues: set `transcript_text`,
`processed_at` and `audio_duration` on every row matching the id. -/
def updateTranscript (db : DB) (tid : String) (text : String) (ts : String)
    (dur : ℤ) : DB :=
  { db with transcripts := db.transcripts.map (fun t =>
      if t.id = tid then
        { t with transcript_text := some text, processed_at := some ts,
                 audio_duration := some dur }
      else t) }

/-- Supabase's `.single()` error text when the filtered select returns no row. -/
def notFoundMessage : String :=
  "JSON object requested, multiple (or no) rows returned"

/-- The `serve` handler of the `process-audio` function: guard the body's
`transcriptId`, fetch the transcript row, write the mock transcript text,
timestamp and duration in one update, then best-effort call the completion
endpoint and insert one insight row (any failure there is only logged), and
answer 200 on success of fetch and update, 500 on any fatal error. -/
def processAudio (body : Option String) (env : ProcEnv) (db : DB) :
    ProcResponse × DB :=
  match body with
  | none => (ProcResponse.failure "Transcript ID is required", db)
  | some tid =>
    if tid = "" then (ProcResponse.failure "Transcript ID is required", db)
    else
      match env.fetchError with
      | some msg => (ProcResponse.failure ("Failed to fetch transcript: " ++ msg), db)
      | none =>
        match db.transcripts.find? (fun t => t.id = tid) with
        | none =>
          (ProcResponse.failure ("Failed to fetch transcript: " ++ notFoundMessage), db)
        | some transcript =>
          let mockTranscript := generateMockTranscript transcript.file_name env.templateDraw
          match env.updateError with
          | some msg =>
            (ProcResponse.failure ("Failed to update transcript: " ++ msg), db)
          | none =>
            let db1 := updateTranscript db tid mockTranscript env.now
              (audioDuration env.durationDraw)
            let db2 :=
              match env.apiKey with
              | none => db1
              | some _ =>
                match env.completion with
                | CompletionOutcome.throws => db1
                | CompletionOutcome.notOk => db1
                | CompletionOutcome.ok content =>
                  match env.insertError with
                  | some _ => db1
                  | none =>
                    { db1 with insights := db1.insights ++
                        [{ transcript_id := tid,
                           user_id := transcript.user_id,
                           summary_text := content,
                           key_points := extractKeyPoints content,
                           tags := generateTags content,
                           confidence_score := confidenceScore env.confDraw }] }
            (ProcResponse.success "Audio processed successfully" mockTranscript, db2)

/-- One toast notification surfaced by the upload page. -/
structure Toast where
  title : String
  description : String
  destructive : Bool
deriving DecidableEq

/-- The "Missing Information" toast shown when file, title or user is absent. -/
def missingInfoToast : Toast :=
  ⟨"Missing Information", "Please select a file and provide a title.", true⟩

/-- The toast shown right after the object-store upload succeeds. -/
def uploadedToast : Toast :=
  ⟨"File uploaded successfully!", "Processing your audio file for transcription...", false⟩

/-- The non-fatal notice shown when the processing invocation errors. -/
def processingErrorToast : Toast :=
  ⟨"Processing Error", "Audio uploaded but processing failed. Please try again later.", true⟩

/-- The toast shown when the processing invocation returns without error. -/
def processingCompleteToast : Toast :=
  ⟨"Processing Complete!", "Your transcript and insights are ready for review.", false⟩

/-- The "Upload Failed" toast carrying the caught error's message. -/
def uploadFailedToast (msg : String) : Toast :=
  ⟨"Upload Failed", msg, true⟩

/-- Environment of one run of the upload pipeline: the id the insert hands
back and the outcome of each fallible external call. -/
structure UploadEnv where
  newId : String
  insertError : Option String
  uploadError : Option String
  invokeError : Option String
deriving DecidableEq

/-- Client-visible state the upload pipeline acts on: the store, the
object-store keys, the surfaced toasts and the route navigated to. -/
structure UploadState where
  db : DB
  storage : List String
  toasts : List Toast
  navigatedTo : Option String
deriving DecidableEq

/-- `file.name.split(".").pop()`: the extension used in the object-store key. -/
def fileExt (name : String) : String :=
  (name.splitOn ".").getLastD ""

/-- The `handleUpload` pipeline of the upload page: reject missing input,
insert the transcript row, upload the file (deleting the just-created row if
the upload fails), invoke the processing step (a failure there only surfaces
a notice), and navigate to the transcript detail view. -/
def handleUpload (file : Option String) (fileTitle : String) (user : Option String)
    (env : UploadEnv) (s : UploadState) : UploadState :=
  match file, user with
  | some fname, some uid =>
    if fileTitle = "" then
      { s with toasts := s.toasts ++ [missingInfoToast] }
    else
      match env.insertError with
      | some msg =>
        { s with toasts := s.toasts ++
            [uploadFailedToast ("Failed to create transcript record: " ++ msg)] }
      | none =>
        let row : TranscriptRow :=
          { id := env.newId, user_id := uid, title := fileTitle.trim,
            file_name := fname, transcript_text := none,
            audio_duration := none, processed_at := none }
        let db1 : DB := { s.db with transcripts := s.db.transcripts ++ [row] }
        let key := uid ++ "/" ++ env.newId ++ "." ++ fileExt fname
        match env.uploadError with
        | some msg =>
          { s with
              db := { db1 with transcripts :=
                        db1.transcripts.filter (fun t => t.id ≠ env.newId) },
              toasts := s.toasts ++
                [uploadFailedToast ("Failed to upload file: " ++ msg)] }
        | none =>
          let toastsAfter :=
            match env.invokeError with
            | some _ => s.toasts ++ [uploadedToast, processingErrorToast]
            | none => s.toasts ++ [uploadedToast, processingCompleteToast]
          { db := db1, storage := s.storage ++ [key], toasts := toastsAfter,
            navigatedTo := some ("/transcripts/" ++ env.newId) }
  | _, _ => { s with toasts := s.toasts ++ [missingInfoToast] }

/-- One atomic state change of the store: a run of the upload pipeline or of
the processing step; the `Math.random()` draws obey their contract `[0, 1)`. -/
inductive Step : DB → DB → Prop where
  | upload (db : DB) (file : Option String) (fileTitle : String)
      (user : Option String) (env : UploadEnv) (storage : List String)
      (toasts : List Toast) (nav : Option String) :
      Step db (handleUpload file fileTitle user env ⟨db, storage, toasts, nav⟩).db
  | process (db : DB) (body : Option String) (env : ProcEnv)
      (hc0 : 0 ≤ env.confDraw) (hc1 : env.confDraw < 1) :
      Step db (processAudio body env db).2

/-- A store reachable from the empty store by pipeline and processing runs. -/
def Reachable (db : DB) : Prop :=
  Relation.ReflTransGen Step emptyDB db

/-- The invariant of claim C2 on a store: a transcript row's `processed_at`
is non-null exactly when its `transcript_text` is. -/
def TranscriptInv (db : DB) : Prop :=
  ∀ t ∈ db.transcripts, (t.processed_at ≠ none ↔ t.transcript_text ≠ none)

/-- A processing environment where every external call fails. -/
def envP0 : ProcEnv :=
  ⟨none, none, none, CompletionOutcome.throws, none, 0, 0, 0, ""⟩

/-- A processing environment where every external call succeeds and the
completion endpoint answers 2xx with empty content. -/
def envP1 : ProcEnv :=
  ⟨none, none, some "key", CompletionOutcome.ok "", none, 0, 0, 0,
   "2025-01-01T00:00:00.000Z"⟩

/-- A processing environment with no configured completion-endpoint key. -/
def envP2 : ProcEnv :=
  ⟨none, none, none, CompletionOutcome.throws, none, 0, 0, 0, ""⟩

/-- An upload environment where every external call succeeds. -/
def envU0 : UploadEnv := ⟨"t1", none, none, none⟩

/-- An upload environment where the object-store upload fails. -/
def envU1 : UploadEnv := ⟨"t2", none, some "network down", none⟩

/-- An upload environment where the processing invocation fails. -/
def envU2 : UploadEnv := ⟨"t3", none, none, some "boom"⟩

/-- The client state before any upload. -/
def state0 : UploadState := ⟨emptyDB, [], [], none⟩

/-- The transcript row the pipeline inserts for `audio.mp3` under `envU0`. -/
def rowT1 : TranscriptRow :=
  ⟨"t1", "u1", "Title".trim, "audio.mp3", none, none, none⟩

/-- The store after one successful upload of `audio.mp3` from the empty state. -/
def dbAfterUpload : DB :=
  (handleUpload (some "audio.mp3") "Title" (some "u1") envU0 state0).db

/-- The store after the uploaded transcript is processed under `envP1`. -/
def dbAfterProcess : DB := (processAudio (some "t1") envP1 dbAfterUpload).2

/-- The insight row the processing step inserts under `envP1`. -/
def insight0 : InsightRow :=
  ⟨"t1", "u1", "", extractKeyPoints "", generateTags "", confidenceScore 0⟩

/-- A one-row store holding `rowT1`. -/
def dbW : DB := ⟨[rowT1], []⟩

lemma generateTags_length_bounds (s : String) :
    3 ≤ (generateTags s).length ∧ (generateTags s).length ≤ 6 := by
  have h3 : additionalTags.length = 3 := rfl
  simp only [generateTags, List.length_take]
  split
  · rename_i h
    simp only [List.length_append, List.length_take, h3]
    omega
  · rename_i h
    omega

lemma extractKeyPoints_length_le (s : String) :
    (extractKeyPoints s).length ≤ 8 := by
  simp only [extractKeyPoints]
  split
  · simp only [List.length_map, List.length_take]
    omega
  · simp only [List.length_take]
    omega

lemma generateTags_subset_vocab (s : String) :
    ∀ t ∈ generateTags s, t ∈ tagVocabulary := by
  intro t ht
  simp only [generateTags] at ht
  have ht' := List.take_subset _ _ ht
  unfold tagVocabulary
  split at ht'
  · rcases List.mem_append.mp ht' with hl | hr
    · exact List.mem_append.mpr (Or.inl (List.mem_of_mem_filter hl))
    · exact List.mem_append.mpr (Or.inr (List.take_subset _ _ hr))
  · exact List.mem_append.mpr (Or.inl (List.mem_of_mem_filter ht'))

lemma commonBusinessTags_nodup : commonBusinessTags.Nodup := by decide

lemma additionalTags_nodup : additionalTags.Nodup := by decide

lemma common_additional_disjoint :
    ∀ a ∈ commonBusinessTags, a ∉ additionalTags := by decide

lemma generateTags_nodup (s : String) : (generateTags s).Nodup := by
  simp only [generateTags]
  apply List.Nodup.sublist (List.take_sublist _ _)
  split
  · refine List.Nodup.append (commonBusinessTags_nodup.filter _)
      (List.Nodup.sublist (List.take_sublist _ _) additionalTags_nodup) ?_
    intro a ha hb
    exact common_additional_disjoint a (List.mem_of_mem_filter ha)
      (List.take_subset _ _ hb)
  · exact commonBusinessTags_nodup.filter _

/-- C8: for every completion-endpoint response text, `extractKeyPoints` returns
at most 8 key points, and `generateTags` returns between 3 and 6 tags. -/
theorem key_points_and_tags_bounds (s : String) :
    (extractKeyPoints s).length ≤ 8 ∧
    3 ≤ (generateTags s).length ∧ (generateTags s).length ≤ 6 :=
  ⟨extractKeyPoints_length_le s, (generateTags_length_bounds s).1,
   (generateTags_length_bounds s).2⟩

/-- C10: every tag returned by `generateTags` comes from the fixed 18-word
vocabulary (the 15 business tags plus the 3 fillers), and the returned list
holds no duplicates. -/
theorem tags_vocab_and_nodup (s : String) :
    (∀ t ∈ generateTags s, t ∈ tagVocabulary) ∧ (generateTags s).Nodup :=
  ⟨generateTags_subset_vocab s, generateTags_nodup s⟩

/-- C9: a missing or empty `transcriptId` makes the processing step answer the
500 error `Transcript ID is required` and leave the store untouched. -/
theorem empty_transcript_id_rejected (body : Option String) (env : ProcEnv)
    (db : DB) (h : body = none ∨ body = some "") :
    processAudio body env db =
      (ProcResponse.failure "Transcript ID is required", db) := by
  rcases h with h | h <;> subst h <;> rfl

theorem empty_transcript_id_rejected_witness :
    processAudio none envP0 emptyDB =
      (ProcResponse.failure "Transcript ID is required", emptyDB) :=
  empty_transcript_id_rejected none envP0 emptyDB (Or.inl rfl)

/-- C6 fails on the code: the draw `3599/3600` is a legal `Math.random()`
value, yet the stored duration is `3899`, outside the claimed `[300, 3600)`. -/
theorem audio_duration_exceeds_claimed_bound :
    0 ≤ (3599 / 3600 : ℚ) ∧ (3599 / 3600 : ℚ) < 1 ∧
    audioDuration (3599 / 3600) = 3899 ∧
    ¬ audioDuration (3599 / 3600) < 3600 := by
  refine ⟨by norm_num, by norm_num, ?_, ?_⟩
  · unfold audioDuration
    norm_num
  · unfold audioDuration
    norm_num

/-- C6 amended: for every draw `r` in `[0, 1)`, the stored audio duration
`Math.floor(r * 3600) + 300` lies in `[300, 3900)`, matching the code's own
comment of 5 to 65 minutes. -/
theorem audio_duration_range (r : ℚ) (h0 : 0 ≤ r) (h1 : r < 1) :
    300 ≤ audioDuration r ∧ audioDuration r < 3900 := by
  unfold audioDuration
  have hge : (0 : ℤ) ≤ Int.floor (r * 3600) :=
    Int.floor_nonneg.mpr (by positivity)
  have hlt : Int.floor (r * 3600) < 3600 := by
    rw [Int.floor_lt]
    push_cast
    nlinarith
  omega

theorem audio_duration_range_witness :
    300 ≤ audioDuration 0 ∧ audioDuration 0 < 3900 :=
  audio_duration_range 0 le_rfl (by norm_num)

lemma templates_length_eq : templates.length = 3 := rfl

/-- C5: for a draw `r` in `[0, 1)` the synthesized text is exactly the
`File:`/`Transcript:` prefix followed by the template at index
`Math.floor(r * 3)`; that index is one of `0, 1, 2`, and it equals `i`
exactly when `r` falls in the length-`1/3` interval `[i/3, (i+1)/3)` — the
uniform split of `[0, 1)` among the three templates. -/
theorem mock_transcript_structure (fileName : String) (r : ℚ)
    (h0 : 0 ≤ r) (h1 : r < 1) :
    generateMockTranscript fileName r =
      "File: " ++ fileName ++ "\n\nTranscript:\n\n" ++
        templates.getD (chosenIdx r) "" ∧
    chosenIdx r < templates.length ∧
    (∀ i : ℕ, i < templates.length →
      (chosenIdx r = i ↔ (i : ℚ) / 3 ≤ r ∧ r < ((i : ℚ) + 1) / 3)) := by
  have hge : (0 : ℤ) ≤ Int.floor (r * (templates.length : ℚ)) := by
    rw [templates_length_eq]
    exact Int.floor_nonneg.mpr (by positivity)
  refine ⟨rfl, ?_, ?_⟩
  · unfold chosenIdx
    rw [templates_length_eq]
    have hlt : Int.floor (r * ((3 : ℕ) : ℚ)) < 3 := by
      rw [Int.floor_lt]
      push_cast
      nlinarith
    omega
  · intro i hi
    rw [templates_length_eq] at hi
    unfold chosenIdx
    rw [templates_length_eq]
    rw [templates_length_eq] at hge
    constructor
    · intro h
      have hfl : Int.floor (r * ((3 : ℕ) : ℚ)) = (i : ℤ) := by omega
      rw [Int.floor_eq_iff] at hfl
      push_cast at hfl
      obtain ⟨ha, hb⟩ := hfl
      constructor <;> linarith
    · intro ⟨ha, hb⟩
      have hfl : Int.floor (r * ((3 : ℕ) : ℚ)) = (i : ℤ) := by
        rw [Int.floor_eq_iff]
        push_cast
        constructor <;> linarith
      omega

theorem mock_transcript_structure_witness :
    generateMockTranscript "audio.mp3" 0 =
      "File: " ++ "audio.mp3" ++ "\n\nTranscript:\n\n" ++ template1 := by
  have h := (mock_transcript_structure "audio.mp3" 0 le_rfl (by norm_num)).1
  have hidx : chosenIdx 0 = 0 := by
    simp [chosenIdx, templates_length_eq]
  rw [h, hidx]
  rfl

lemma confidenceScore_mem_range {r : ℚ} (h0 : 0 ≤ r) (h1 : r < 1) :
    0.85 ≤ confidenceScore r ∧ confidenceScore r < 1 := by
  unfold confidenceScore
  constructor <;> nlinarith

/-- C1: when the transcript insert succeeds and the object-store upload then
fails, the pipeline deletes every row carrying the just-generated id (so the
row created by this run no longer exists), surfaces the upload error, adds no
object-store key and does not navigate; if the generated id was fresh, the
transcripts table is exactly what it was before the run. -/
theorem upload_failure_compensating_delete
    (fname fileTitle uid msg : String) (env : UploadEnv) (s : UploadState)
    (htitle : fileTitle ≠ "") (hins : env.insertError = none)
    (hup : env.uploadError = some msg) :
    (∀ t ∈ (handleUpload (some fname) fileTitle (some uid) env s).db.transcripts,
        t.id ≠ env.newId) ∧
    ((∀ t ∈ s.db.transcripts, t.id ≠ env.newId) →
      (handleUpload (some fname) fileTitle (some uid) env s).db.transcripts =
        s.db.transcripts) ∧
    (handleUpload (some fname) fileTitle (some uid) env s).toasts =
      s.toasts ++ [uploadFailedToast ("Failed to upload file: " ++ msg)] ∧
    (handleUpload (some fname) fileTitle (some uid) env s).storage = s.storage ∧
    (handleUpload (some fname) fileTitle (some uid) env s).navigatedTo =
      s.navigatedTo := by
  simp only [handleUpload, hins, hup, if_neg htitle]
  refine ⟨?_, ?_, trivial, trivial, trivial⟩
  · intro t ht
    have := (List.mem_filter.mp ht).2
    simpa using this
  · intro hfresh
    rw [List.filter_append]
    have h1 : (s.db.transcripts.filter fun t => t.id ≠ env.newId) =
        s.db.transcripts :=
      List.filter_eq_self.mpr (fun a ha => by simpa using hfresh a ha)
    have h2 : (([{ id := env.newId, user_id := uid,
                   title := fileTitle.trim, file_name := fname,
                   transcript_text := none, audio_duration := none,
                   processed_at := none }] : List TranscriptRow).filter
          fun t => t.id ≠ env.newId) = [] := by
      simp
    rw [h1, h2, List.append_nil]

theorem upload_failure_compensating_delete_witness :
    (handleUpload (some "a.mp3") "T" (some "u1") envU1 state0).db.transcripts =
      state0.db.transcripts ∧
    (handleUpload (some "a.mp3") "T" (some "u1") envU1 state0).toasts =
      state0.toasts ++
        [uploadFailedToast ("Failed to upload file: " ++ "network down")] ∧
    (handleUpload (some "a.mp3") "T" (some "u1") envU1 state0).storage =
      state0.storage ∧
    (handleUpload (some "a.mp3") "T" (some "u1") envU1 state0).navigatedTo =
      state0.navigatedTo := by
  obtain ⟨h1, h2, h3, h4, h5⟩ := upload_failure_compensating_delete
    "a.mp3" "T" "u1" "network down" envU1 state0
    (by decide) rfl rfl
  exact ⟨h2 (by simp [state0, emptyDB]), h3, h4, h5⟩

/-- C4: once the insert and the upload both succeed, a failing processing
invocation is non-fatal: the new transcript row and its object-store key stay,
a `Processing Error` notice is surfaced on failure, and the pipeline navigates
to the transcript detail view whether the invocation failed or not. -/
theorem invoke_failure_nonfatal
    (fname fileTitle uid : String) (env : UploadEnv) (s : UploadState)
    (htitle : fileTitle ≠ "") (hins : env.insertError = none)
    (hup : env.uploadError = none) :
    (handleUpload (some fname) fileTitle (some uid) env s).navigatedTo =
      some ("/transcripts/" ++ env.newId) ∧
    (handleUpload (some fname) fileTitle (some uid) env s).db.transcripts =
      s.db.transcripts ++
        [{ id := env.newId, user_id := uid, title := fileTitle.trim,
           file_name := fname, transcript_text := none,
           audio_duration := none, processed_at := none }] ∧
    (handleUpload (some fname) fileTitle (some uid) env s).storage =
      s.storage ++ [uid ++ "/" ++ env.newId ++ "." ++ fileExt fname] ∧
    (env.invokeError.isSome →
      processingErrorToast ∈
        (handleUpload (some fname) fileTitle (some uid) env s).toasts) := by
  simp only [handleUpload, hins, hup, if_neg htitle]
  cases hinv : env.invokeError with
  | none =>
    refine ⟨trivial, trivial, trivial, ?_⟩
    intro hs
    simp at hs
  | some e =>
    refine ⟨trivial, trivial, trivial, ?_⟩
    intro _
    simp

theorem invoke_failure_nonfatal_witness :
    (handleUpload (some "a.mp3") "T" (some "u1") envU2 state0).navigatedTo =
      some ("/transcripts/" ++ envU2.newId) ∧
    processingErrorToast ∈
      (handleUpload (some "a.mp3") "T" (some "u1") envU2 state0).toasts := by
  obtain ⟨h1, h2, h3, h4⟩ := invoke_failure_nonfatal
    "a.mp3" "T" "u1" envU2 state0 (by decide) rfl rfl
  exact ⟨h1, h4 (by decide)⟩

lemma updateTranscript_insights (db : DB) (tid text ts : String) (dur : ℤ) :
    (updateTranscript db tid text ts dur).insights = db.insights := rfl

lemma handleUpload_insights_eq (file : Option String) (fileTitle : String)
    (user : Option String) (env : UploadEnv) (s : UploadState) :
    (handleUpload file fileTitle user env s).db.insights = s.db.insights := by
  cases file with
  | none => cases user <;> rfl
  | some fname =>
    cases user with
    | none => rfl
    | some uid =>
      by_cases ht : fileTitle = ""
      · simp [handleUpload, ht]
      · cases hins : env.insertError with
        | some m => simp [handleUpload, ht, hins]
        | none =>
          cases hup : env.uploadError with
          | some m => simp [handleUpload, ht, hins, hup]
          | none =>
            cases hinv : env.invokeError <;>
              simp [handleUpload, ht, hins, hup, hinv]

lemma handleUpload_transcripts_shape (file : Option String) (fileTitle : String)
    (user : Option String) (env : UploadEnv) (s : UploadState) :
    (handleUpload file fileTitle user env s).db.transcripts = s.db.transcripts ∨
    (∃ row : TranscriptRow, row.transcript_text = none ∧ row.processed_at = none ∧
      (handleUpload file fileTitle user env s).db.transcripts =
        s.db.transcripts ++ [row]) ∨
    (∃ row : TranscriptRow, row.transcript_text = none ∧ row.processed_at = none ∧
      (handleUpload file fileTitle user env s).db.transcripts =
        (s.db.transcripts ++ [row]).filter (fun t => t.id ≠ env.newId)) := by
  cases file with
  | none => exact Or.inl (by cases user <;> rfl)
  | some fname =>
    cases user with
    | none => exact Or.inl rfl
    | some uid =>
      by_cases ht : fileTitle = ""
      · exact Or.inl (by simp [handleUpload, ht])
      · cases hins : env.insertError with
        | some m => exact Or.inl (by simp [handleUpload, ht, hins])
        | none =>
          cases hup : env.uploadError with
          | some m =>
            refine Or.inr (Or.inr ⟨⟨env.newId, uid, fileTitle.trim, fname,
              none, none, none⟩, rfl, rfl, ?_⟩)
            simp [handleUpload, ht, hins, hup]
          | none =>
            refine Or.inr (Or.inl ⟨⟨env.newId, uid, fileTitle.trim, fname,
              none, none, none⟩, rfl, rfl, ?_⟩)
            cases hinv : env.invokeError <;>
              simp [handleUpload, ht, hins, hup, hinv]

lemma processAudio_transcripts_shape (body : Option String) (env : ProcEnv)
    (db : DB) :
    (processAudio body env db).2.transcripts = db.transcripts ∨
    ∃ tid text ts dur, (processAudio body env db).2.transcripts =
      db.transcripts.map (fun t =>
        if t.id = tid then
          { t with transcript_text := some text, processed_at := some ts,
                   audio_duration := some dur }
        else t) := by
  cases body with
  | none => exact Or.inl rfl
  | some tid =>
    by_cases ht : tid = ""
    · exact Or.inl (by simp [processAudio, ht])
    · cases hf : env.fetchError with
      | some m => exact Or.inl (by simp [processAudio, ht, hf])
      | none =>
        cases hfind : db.transcripts.find? (fun t => t.id = tid) with
        | none => exact Or.inl (by simp [processAudio, ht, hf, hfind])
        | some tr =>
          cases hu : env.updateError with
          | some m => exact Or.inl (by simp [processAudio, ht, hf, hfind, hu])
          | none =>
            refine Or.inr ⟨tid,
              generateMockTranscript tr.file_name env.templateDraw, env.now,
              audioDuration env.durationDraw, ?_⟩
            simp only [processAudio, ht, hf, hfind, hu]
            cases env.apiKey with
            | none => rfl
            | some k =>
              cases env.completion with
              | throws => rfl
              | notOk => rfl
              | ok content => cases env.insertError <;> rfl

lemma processAudio_insights_shape (body : Option String) (env : ProcEnv)
    (db : DB) :
    (processAudio body env db).2.insights = db.insights ∨
    ∃ tid uidv content, (processAudio body env db).2.insights =
      db.insights ++ [⟨tid, uidv, content, extractKeyPoints content,
        generateTags content, confidenceScore env.confDraw⟩] := by
  cases body with
  | none => exact Or.inl rfl
  | some tid =>
    by_cases ht : tid = ""
    · exact Or.inl (by simp [processAudio, ht])
    · cases hf : env.fetchError with
      | some m => exact Or.inl (by simp [processAudio, ht, hf])
      | none =>
        cases hfind : db.transcripts.find? (fun t => t.id = tid) with
        | none => exact Or.inl (by simp [processAudio, ht, hf, hfind])
        | some tr =>
          cases hu : env.updateError with
          | some m => exact Or.inl (by simp [processAudio, ht, hf, hfind, hu])
          | none =>
            cases hk : env.apiKey with
            | none =>
              exact Or.inl (by
                simp [processAudio, ht, hf, hfind, hu, hk, updateTranscript_insights])
            | some k =>
              cases hc : env.completion with
              | throws =>
                exact Or.inl (by
                  simp [processAudio, ht, hf, hfind, hu, hk, hc, updateTranscript_insights])
              | notOk =>
                exact Or.inl (by
                  simp [processAudio, ht, hf, hfind, hu, hk, hc, updateTranscript_insights])
              | ok content =>
                cases hi : env.insertError with
                | some m =>
                  exact Or.inl (by
                    simp [processAudio, ht, hf, hfind, hu, hk, hc, hi,
                      updateTranscript_insights])
                | none =>
                  refine Or.inr ⟨tid, tr.user_id, content, ?_⟩
                  simp [processAudio, ht, hf, hfind, hu, hk, hc, hi,
                    updateTranscript]

/-- C2: in every store reachable by upload-pipeline and processing-step runs
from the empty store, a transcript row's `processed_at` is non-null exactly
when its `transcript_text` is: the processing step writes both (with the
duration) in its single update, and no other operation sets either field. -/
theorem transcript_text_processed_at_iff (db : DB) (h : Reachable db) :
    ∀ t ∈ db.transcripts, (t.processed_at ≠ none ↔ t.transcript_text ≠ none) := by
  have h' : Relation.ReflTransGen Step emptyDB db := h
  clear h
  induction h' with
  | refl =>
    intro t ht
    simp [emptyDB] at ht
  | tail hsteps hstep ih =>
    rename_i b c
    cases hstep with
    | upload file fileTitle user env storage toasts nav =>
      intro t ht
      rcases handleUpload_transcripts_shape file fileTitle user env
          ⟨b, storage, toasts, nav⟩ with heq | ⟨row, h1, h2, heq⟩ | ⟨row, h1, h2, heq⟩
      · rw [heq] at ht
        exact ih t ht
      · rw [heq] at ht
        rcases List.mem_append.mp ht with hold | hnew
        · exact ih t hold
        · have hrow : t = row := by simpa using hnew
          rw [hrow, h1, h2]
      · rw [heq] at ht
        have ht' := List.mem_filter.mp ht
        rcases List.mem_append.mp ht'.1 with hold | hnew
        · exact ih t hold
        · have hrow : t = row := by simpa using hnew
          rw [hrow, h1, h2]
    | process body env hc0 hc1 =>
      intro t ht
      rcases processAudio_transcripts_shape body env b with heq | ⟨tid, text, ts, dur, heq⟩
      · rw [heq] at ht
        exact ih t ht
      · rw [heq] at ht
        rcases List.mem_map.mp ht with ⟨t0, ht0, hteq⟩
        by_cases hid : t0.id = tid
        · rw [← hteq, if_pos hid]
          simp
        · rw [← hteq, if_neg hid]
          exact ih t0 ht0

theorem transcript_text_processed_at_iff_witness :
    (rowT1.processed_at ≠ none ↔ rowT1.transcript_text ≠ none) := by
  have hmem : rowT1 ∈ dbAfterUpload.transcripts := by
    have h : dbAfterUpload.transcripts = [rowT1] := rfl
    rw [h]
    exact List.mem_singleton.mpr rfl
  exact transcript_text_processed_at_iff dbAfterUpload
    (Relation.ReflTransGen.single
      (Step.upload emptyDB (some "audio.mp3") "Title" (some "u1") envU0 [] [] none))
    rowT1 hmem

/-- C7: in every reachable store, every insight row's confidence score lies in
`[0.85, 1)`: the only operation that creates insights stores
`0.85 + Math.random() * 0.15`. -/
theorem insight_confidence_range (db : DB) (h : Reachable db) :
    ∀ ins ∈ db.insights,
      0.85 ≤ ins.confidence_score ∧ ins.confidence_score < 1 := by
  have h' : Relation.ReflTransGen Step emptyDB db := h
  clear h
  induction h' with
  | refl =>
    intro ins hins
    simp [emptyDB] at hins
  | tail hsteps hstep ih =>
    rename_i b c
    cases hstep with
    | upload file fileTitle user env storage toasts nav =>
      intro ins hins
      rw [handleUpload_insights_eq] at hins
      exact ih ins hins
    | process body env hc0 hc1 =>
      intro ins hins
      rcases processAudio_insights_shape body env b with heq | ⟨tid, uidv, content, heq⟩
      · rw [heq] at hins
        exact ih ins hins
      · rw [heq] at hins
        rcases List.mem_append.mp hins with hold | hnew
        · exact ih ins hold
        · have hrow : ins = ⟨tid, uidv, content, extractKeyPoints content,
              generateTags content, confidenceScore env.confDraw⟩ := by
            simpa using hnew
          rw [hrow]
          exact confidenceScore_mem_range hc0 hc1

theorem insight_confidence_range_witness :
    0.85 ≤ insight0.confidence_score ∧ insight0.confidence_score < 1 := by
  have hmem : insight0 ∈ dbAfterProcess.insights := by
    have h : dbAfterProcess.insights = [insight0] := rfl
    rw [h]
    exact List.mem_singleton.mpr rfl
  exact insight_confidence_range dbAfterProcess
    (Relation.ReflTransGen.tail
      (Relation.ReflTransGen.single
        (Step.upload emptyDB (some "audio.mp3") "Title" (some "u1") envU0 [] [] none))
      (Step.process dbAfterUpload (some "t1") envP1 (by norm_num [envP1])
        (by norm_num [envP1])))
    insight0 hmem

/-- C3: the processing step answers the 200 success shape exactly when the
body names a transcript, the fetch finds it and the update succeeds — for
every outcome of the completion-endpoint key, call and insight insert — and
otherwise it answers a 500 error shape. -/
theorem processing_response_characterization (body : Option String)
    (env : ProcEnv) (db : DB) :
    (∀ tid t, body = some tid → tid ≠ "" → env.fetchError = none →
        db.transcripts.find? (fun x => x.id = tid) = some t →
        env.updateError = none →
        (processAudio body env db).1 =
          ProcResponse.success "Audio processed successfully"
            (generateMockTranscript t.file_name env.templateDraw)) ∧
    ((∃ m tr, (processAudio body env db).1 = ProcResponse.success m tr) →
        ∃ tid t, body = some tid ∧ tid ≠ "" ∧ env.fetchError = none ∧
          db.transcripts.find? (fun x => x.id = tid) = some t ∧
          env.updateError = none) ∧
    ((∃ e, (processAudio body env db).1 = ProcResponse.failure e) ∨
        (∃ m tr, (processAudio body env db).1 = ProcResponse.success m tr)) := by
  refine ⟨?_, ?_, ?_⟩
  · intro tid t hb ht hf hfind hu
    subst hb
    simp [processAudio, ht, hf, hfind, hu]
  · cases body with
    | none =>
      rintro ⟨m, tr, hmtr⟩
      simp [processAudio] at hmtr
    | some tid =>
      by_cases ht : tid = ""
      · rintro ⟨m, tr, hmtr⟩
        simp [processAudio, ht] at hmtr
      · cases hf : env.fetchError with
        | some msg =>
          rintro ⟨m, tr, hmtr⟩
          simp [processAudio, ht, hf] at hmtr
        | none =>
          cases hfind : db.transcripts.find? (fun x => x.id = tid) with
          | none =>
            rintro ⟨m, tr, hmtr⟩
            simp [processAudio, ht, hf, hfind] at hmtr
          | some t =>
            cases hu : env.updateError with
            | some msg =>
              rintro ⟨m, tr, hmtr⟩
              simp [processAudio, ht, hf, hfind, hu] at hmtr
            | none =>
              intro _
              exact ⟨tid, t, rfl, ht, rfl, hfind, rfl⟩
  · rcases hr : (processAudio body env db).1 with ⟨m, tr⟩ | e
    · exact Or.inr ⟨m, tr, rfl⟩
    · exact Or.inl ⟨e, rfl⟩

theorem processing_response_characterization_witness :
    (processAudio (some "t1") envP2 dbW).1 =
      ProcResponse.success "Audio processed successfully"
        (generateMockTranscript rowT1.file_name envP2.templateDraw) :=
  (processing_response_characterization (some "t1") envP2 dbW).1 "t1" rowT1
    rfl (by decide) rfl rfl rfl
